import Mathlib

/-!
Verification development for the OverlayX plugin pipeline
(source: overlayx.py and plugins/base, clock, cpu, overlay, crop, tail, tlp).

The Python code is shallowly embedded: every plugin class becomes a state
structure plus pure functions mirroring its methods; external effects
(wall clock, CPU sampling, file system, font files, PIL drawing) are made
explicit, either as fields of an environment record or as an emitted trace
of drawing operations on a syntactic frame value.  Machine floats in the
source only carry times, intervals and scale factors, so they are modelled
as rationals.
-/

/-! ### Small Python-semantics helpers -/

/-- Decimal digit accumulation, most significant digit first; fuel bounds
the recursion depth and is always taken large enough. -/
def natDigitsGo : Nat → Nat → List Char → List Char
  | 0, _, acc => acc
  | fuel + 1, n, acc =>
    if n < 10 then Nat.digitChar n :: acc
    else natDigitsGo fuel (n / 10) (Nat.digitChar (n % 10) :: acc)

/-- Decimal digits of a natural number, most significant first. -/
def natDigits (n : Nat) : List Char := natDigitsGo (n + 1) n []

/-- Decimal rendering of a natural number, as produced by the Python
f-string for the id-collision counter in register_plugin. -/
def decimalRepr (n : Nat) : String := ⟨natDigits n⟩

/-- Decode a digit list back to a natural number. -/
def decDigits (l : List Char) : Nat := l.foldl (fun a c => a * 10 + (c.toNat - 48)) 0

/-- Whether sub occurs as a contiguous run inside the second list
(Python substring containment, used on format strings). -/
def listHasSub (sub : List Char) : List Char → Bool
  | [] => sub.isEmpty
  | c :: t => (sub == (c :: t).take sub.length) || listHasSub sub t

/-- Python: sub in s. -/
def containsSub (sub s : String) : Bool := listHasSub sub.data s.data

/-- Python int() truncation toward zero on a rational. -/
def pyInt (x : Rat) : Int := if 0 ≤ x then x.floor else x.ceil

/-- Python slice l[-n:] as used for the tail of a line list: note that
for n = 0 the slice l[-0:] is the whole list. -/
def pySliceLast (n : Nat) (l : List String) : List String :=
  if n = 0 then l else l.drop (l.length - n)

/-- Python slice l[:n]. -/
def pySliceFirst (n : Nat) (l : List String) : List String := l.take n

/-- Python str.rstrip applied with newline and carriage-return characters. -/
def rstripNL (s : String) : String :=
  ⟨(s.data.reverse.dropWhile (fun c => c == '\n' || c == '\r')).reverse⟩

def upChar (c : Char) : Char :=
  if 'a' ≤ c && c ≤ 'z' then Char.ofNat (c.toNat - 32) else c

/-- Python str.upper on the ASCII range (all TLP levels and zone keywords
compared in the source are ASCII). -/
def pyUpper (s : String) : String := ⟨s.data.map upChar⟩

def downChar (c : Char) : Char :=
  if 'A' ≤ c && c ≤ 'Z' then Char.ofNat (c.toNat + 32) else c

/-- Python str.lower on the ASCII range. -/
def pyLower (s : String) : String := ⟨s.data.map downChar⟩

/-! ### Unique-id generation (PluginManager.register_plugin while loop)

The Python loop tries instance_id, then orig_1, orig_2, ... until the
candidate is not a key of the registry.  The loop is embedded with fuel
one more than the number of taken ids; the pigeonhole lemmas below show
this fuel always suffices, so the embedded loop returns a fresh id. -/

/-- Candidate id number k for original id orig: candidate 0 is orig itself,
candidate k for positive k carries the _k suffix. -/
def candidateId (orig : String) : Nat → String
  | 0 => orig
  | k + 1 => orig ++ "_" ++ decimalRepr (k + 1)

/-- Body of the register_plugin while loop.  cur is the current candidate,
counter the next suffix number to try, fuel a bound on iterations. -/
def freshIdGo (taken : List String) (orig : String) : Nat → Nat → String → String
  | 0, _, cur => cur
  | fuel + 1, counter, cur =>
    if cur ∈ taken then
      freshIdGo taken orig fuel (counter + 1) (orig ++ "_" ++ decimalRepr counter)
    else cur

/-- The unique instance id computed by register_plugin for original id orig
against the registry keys taken. -/
def freshId (taken : List String) (orig : String) : String :=
  freshIdGo taken orig (taken.length + 1) 1 orig

/-! ### Configuration data model

Opts embeds the per-plugin option mapping (the plugin_config dict handed
to a plugin constructor); each Python dict key becomes an optional typed
field, absent key = none. -/

structure Opts where
  format : Option String := none
  timezone : Option String := none
  position : Option (Int × Int) := none
  font_size : Option Nat := none
  font_path : Option String := none
  font : Option String := none
  showOpt : Option Bool := none
  show_by_default : Option Bool := none
  enabled : Option Bool := none
  file : Option String := none
  opacity : Option Rat := none
  fitOpt : Option Bool := none
  resize : Option Rat := none
  default_tlp : Option String := none
  padding : Option Nat := none
  lines : Option Nat := none
  update_interval : Option Rat := none
  following : Option Bool := none
  breakline : Option Bool := none
  width : Option Nat := none
  height : Option Nat := none
  text_color : Option (List Nat) := none
  background_color : Option (List Nat) := none
  deriving DecidableEq, Repr

/-- Global application configuration (the AppConfig dataclass fields the
plugins read: output size and the font assets list of name-path pairs). -/
structure AppConfig where
  width : Nat := 1280
  height : Nat := 720
  fonts : List (String × String) := []
  deriving DecidableEq, Repr

/-- A plugin instance descriptor produced by the configuration resolver
(_parse_plugin_instances): type, unique id, enabled flag and options. -/
structure InstanceConfig where
  type : String
  id : String
  enabled : Bool := true
  config : Opts := {}
  deriving DecidableEq, Repr

/-! ### Frames, drawing and time -/

/-- The datetime value produced by ClockPlugin._get_current_time: either a
naive local time or a time carrying an attached timezone. -/
inductive CTime where
  | naiveLocal
  | awareLocal
  | awareUTC
  | awareZone (name : String)
  deriving DecidableEq, Repr

/-- A drawing operation emitted through the shared ImageDraw context. -/
inductive DrawRec where
  | rect (x1 y1 x2 y2 : Int) (fill : List Nat)
  | text (pos : Int × Int) (s : String) (fill : List Nat)
  | timeText (pos : Int × Int) (t : CTime) (s : String)
  deriving DecidableEq, Repr

/-- A loaded overlay image: its pixel size (content abstracted). -/
structure OvImage where
  w : Int
  h : Int
  deriving DecidableEq, Repr

/-- A record of one frame.paste composite: the image pasted, the opacity
factor applied to a copy of its alpha channel (none = pasted as loaded)
and the paste position. -/
structure PasteRec where
  img : OvImage
  opacityApplied : Option Rat
  pos : Int × Int
  deriving DecidableEq, Repr

/-- Syntactic model of a PIL image flowing through the pipeline: the
source frame plus the transformations applied to it, in order. -/
inductive Frame where
  | src (w h : Nat) (tag : Nat)
  | fitTo (w h : Nat) (f : Frame)
  | pasted (f : Frame) (p : PasteRec)
  | drawn (f : Frame) (d : DrawRec)
  deriving DecidableEq, Repr

/-- Description of one file visible to the tail plugin: os.stat size and
mtime, and the lines that readlines would produce. -/
structure FileInfo where
  size : Int
  mtime : Rat
  lines : List String
  deriving DecidableEq, Repr

/-- The external world as seen by the plugins: wall-clock time, CPU
sampling, the IANA zone database, strftime and font metrics, and the file
system for overlay images, fonts and tailed files. -/
structure Env where
  now : Rat := 0
  cpuPercent : Rat := 0
  zones : List String := []
  strftime : CTime → String → String := fun _ _ => ""
  textBBox : Int × Int → String → Int × Int × Int × Int := fun _ _ => (0, 0, 0, 0)
  fileExists : String → Bool := fun _ => false
  loadImage : String → OvImage := fun _ => ⟨0, 0⟩
  fontOk : String → Bool := fun _ => false
  readFile : String → Option FileInfo := fun _ => none

/-- Font resolution shared by the plugins: explicit font_path first, then
named lookup in the assets list, then the platform fallback chain,
modelled as its outcome (some path) or the built-in default (none). -/
def loadFont (env : Env) (opts : Opts) (app : AppConfig) : Option String :=
  match opts.font_path with
  | some p => if env.fontOk p then some p else loadFontNamed env opts app
  | none => loadFontNamed env opts app
where
  loadFontNamed (env : Env) (opts : Opts) (app : AppConfig) : Option String :=
    match opts.font with
    | some nm =>
      match (app.fonts.find? (fun f => f.1 == nm)).map (·.2) with
      | some p => if env.fontOk p then some p else loadFontSystem env
      | none => loadFontSystem env
    | none => loadFontSystem env
  loadFontSystem (env : Env) : Option String :=
    if env.fontOk "/System/Library/Fonts/SFNS.ttf" then some "/System/Library/Fonts/SFNS.ttf"
    else if env.fontOk "/System/Library/Fonts/Menlo.ttc" then some "/System/Library/Fonts/Menlo.ttc"
    else none

/-! ### ClockPlugin (plugins/clock.py) -/

/-- State of a ClockPlugin instance: base-class attributes (name is the
fixed string clock, enabled, config) plus the fields set in the clock
constructor and initialize. -/
structure ClockState where
  enabled : Bool
  config : Opts
  format_str : String
  font : Option String
  position : Int × Int
  font_size : Nat
  showFlag : Bool
  timezone : Option String
  deriving DecidableEq, Repr

/-- ClockPlugin.__init__ (including the Plugin base constructor, which
sets enabled from show_by_default defaulting to true). -/
def ClockPlugin.ctor (config : Opts) : ClockState :=
  { enabled := config.show_by_default.getD true
    config := config
    format_str := "%H:%M:%S"
    font := none
    position := (1080, 20)
    font_size := 35
    showFlag := true
    timezone := none }

/-- ClockPlugin.initializeApp: resolves format, timezone, position, font
size, visibility and font from the option mapping (the real AppConfig
dataclass defines none of the legacy clock_* attributes, so those elif
branches never fire). -/
def ClockPlugin.initializeApp (env : Env) (app : AppConfig) (s : ClockState) : ClockState :=
  let s := { s with format_str := s.config.format.getD s.format_str }
  let s := { s with timezone := s.config.timezone }
  let s := { s with position := s.config.position.getD s.position }
  let s := { s with font_size := s.config.font_size.getD s.font_size }
  let s := { s with showFlag :=
    match s.config.showOpt with
    | some b => b
    | none => match s.config.show_by_default with
      | some b => b
      | none => true }
  { s with font := loadFont env s.config app }

/-- Whether the strftime format string requires timezone information
(contains a %z or %Z directive). -/
def needsTzOf (fmt : String) : Bool := containsSub "%z" fmt || containsSub "%Z" fmt

/-- ClockPlugin._get_current_time: the datetime used for rendering plus
the warnings printed while computing it. -/
def ClockPlugin.get_current_time (zones : List String) (s : ClockState) :
    CTime × List String :=
  let needs := needsTzOf s.format_str
  match s.timezone with
  | none => if needs then (.awareLocal, []) else (.naiveLocal, [])
  | some tzs =>
    if pyLower tzs == "local" then (.awareLocal, [])
    else if !needs then (.naiveLocal, [])
    else if pyUpper tzs == "UTC" then (.awareUTC, [])
    else if zones.contains tzs then (.awareZone tzs, [])
    else (.naiveLocal, ["Aviso: Timezone nao reconhecida. Usando hora local."])

/-- ClockPlugin.process_frame: returns the frame (with the drawing done
through the shared context recorded on it) and the warnings printed. -/
def ClockPlugin.process_frame (env : Env) (s : ClockState) (frame : Frame) :
    Frame × List String :=
  if !s.showFlag then (frame, [])
  else
    let tw := ClockPlugin.get_current_time env.zones s
    let horaStr := env.strftime tw.1 s.format_str
    let bbox := env.textBBox s.position horaStr
    let frame := Frame.drawn frame (.rect (bbox.1 - 5) (bbox.2.1 - 5) (bbox.2.2.1 + 5)
      (bbox.2.2.2 + 5) [0, 0, 0, 100])
    (Frame.drawn frame (.timeText s.position tw.1 horaStr), tw.2)

/-! ### CPUPlugin (plugins/cpu.py) -/

/-- State of a CPUPlugin instance. -/
structure CPUState where
  enabled : Bool
  config : Opts
  cpu_usage : String
  last_check : Rat
  update_interval : Rat
  showFlag : Bool
  font : Option String
  position : Int × Int
  font_size : Nat
  deriving DecidableEq, Repr

/-- CPUPlugin.__init__ (with the Plugin base constructor). -/
def CPUPlugin.ctor (config : Opts) : CPUState :=
  { enabled := config.show_by_default.getD true
    config := config
    cpu_usage := "CPU: 0%"
    last_check := 0
    update_interval := 2
    showFlag := true
    font := none
    position := (40, 35)
    font_size := 18 }

/-- CPUPlugin.initializeApp. -/
def CPUPlugin.initializeApp (env : Env) (app : AppConfig) (s : CPUState) : CPUState :=
  let s := { s with update_interval := s.config.update_interval.getD 2 }
  let s := { s with position := s.config.position.getD s.position }
  let s := { s with font_size := s.config.font_size.getD s.font_size }
  let s := { s with showFlag :=
    match s.config.showOpt with
    | some b => b
    | none => match s.config.show_by_default with
      | some b => b
      | none => true }
  { s with font := loadFont env s.config app }

/-- Decimal rendering of an integer (Python str of an int). -/
def intRepr (i : Int) : String :=
  if i < 0 then "-" ++ decimalRepr i.natAbs else decimalRepr i.toNat

/-- CPUPlugin.process_frame: refreshes the cached usage text at most once
per update_interval, then draws it; returns frame and updated state. -/
def CPUPlugin.process_frame (env : Env) (s : CPUState) (frame : Frame) :
    Frame × CPUState :=
  if !s.showFlag then (frame, s)
  else
    let s :=
      if s.update_interval < env.now - s.last_check then
        { s with cpu_usage := "CPU: " ++ intRepr (pyInt env.cpuPercent) ++ "%"
                 last_check := env.now }
      else s
    (Frame.drawn frame (.text s.position s.cpu_usage [0, 255, 0, 200]), s)

/-! ### OverlayPlugin (plugins/overlay.py) -/

/-- State of an OverlayPlugin instance. -/
structure OverlayState where
  enabled : Bool
  config : Opts
  overlay_image : Option OvImage
  file : String
  opacity : Rat
  position : Int × Int
  fitFlag : Bool
  resize : Rat
  deriving DecidableEq, Repr

/-- OverlayPlugin.__init__: note the constructor overwrites the base-class
enabled with True after super().__init__. -/
def OverlayPlugin.ctor (config : Opts) : OverlayState :=
  { enabled := true
    config := config
    overlay_image := none
    file := "moldura.png"
    opacity := 1
    position := (0, 0)
    fitFlag := false
    resize := 1 }

/-- OverlayPlugin._apply_resize: fit stretches to the output resolution,
otherwise a resize factor other than 1 scales both dimensions through
Python int(). -/
def OverlayPlugin.apply_resize (s : OverlayState) (app : AppConfig) (image : OvImage) :
    OvImage :=
  if s.fitFlag then
    if (image.w, image.h) ≠ ((app.width : Int), (app.height : Int)) then
      ⟨(app.width : Int), (app.height : Int)⟩
    else image
  else if s.resize ≠ 1 then
    let nw := pyInt ((image.w : Rat) * s.resize)
    let nh := pyInt ((image.h : Rat) * s.resize)
    if (nw, nh) ≠ (image.w, image.h) then ⟨nw, nh⟩ else image
  else image

/-- OverlayPlugin.initializeApp: resolves options, then loads the overlay
image when the file exists, else warns and leaves overlay_image as None.
Returns the new state and the warnings printed. -/
def OverlayPlugin.initializeApp (env : Env) (app : AppConfig) (s : OverlayState) :
    OverlayState × List String :=
  let s := { s with file := s.config.file.getD "moldura.png" }
  let s := { s with enabled :=
    match s.config.enabled with
    | some b => b
    | none => match s.config.show_by_default with
      | some b => b
      | none => true }
  let s := { s with opacity := s.config.opacity.getD 1 }
  let s := { s with position := s.config.position.getD (0, 0) }
  let s := { s with fitFlag := s.config.fitOpt.getD false }
  let s := { s with resize := s.config.resize.getD 1 }
  if env.fileExists s.file then
    ({ s with overlay_image := some (OverlayPlugin.apply_resize s app (env.loadImage s.file)) },
      [])
  else
    (s, ["Aviso: Arquivo de overlay nao encontrado: " ++ s.file])

/-- OverlayPlugin.process_frame: no-op when disabled or when no image is
loaded; otherwise pastes the image (an opacity-scaled copy when
opacity < 1) at the configured position. -/
def OverlayPlugin.process_frame (s : OverlayState) (frame : Frame) : Frame :=
  if !s.enabled || s.overlay_image.isNone then frame
  else
    match s.overlay_image with
    | none => frame
    | some img =>
      if s.opacity < 1 then Frame.pasted frame ⟨img, some s.opacity, s.position⟩
      else Frame.pasted frame ⟨img, none, s.position⟩

/-! ### CropPlugin (plugins/crop.py) -/

/-- State of a CropPlugin instance. -/
structure CropState where
  enabled : Bool
  config : Opts
  target_size : Nat × Nat
  deriving DecidableEq, Repr

/-- CropPlugin.__init__. -/
def CropPlugin.ctor (config : Opts) : CropState :=
  { enabled := config.show_by_default.getD true
    config := config
    target_size := (1280, 720) }

/-- CropPlugin.initializeApp. -/
def CropPlugin.initializeApp (app : AppConfig) (s : CropState) : CropState :=
  { s with target_size := (app.width, app.height) }

/-- CropPlugin.process_frame: ImageOps.fit to the target size,
unconditionally (there is no enabled gate in this method). -/
def CropPlugin.process_frame (s : CropState) (frame : Frame) : Frame :=
  Frame.fitTo s.target_size.1 s.target_size.2 frame

/-! ### TLPPlugin (plugins/tlp.py) -/

/-- TLP level to (text color, background color) table. -/
def TLP_COLORS : List (String × (List Nat × List Nat)) :=
  [("RED", ([255, 43, 43], [0, 0, 0])),
   ("AMBER", ([255, 192, 0], [0, 0, 0])),
   ("GREEN", ([51, 255, 0], [0, 0, 0])),
   ("CLEAR", ([255, 255, 255], [0, 0, 0]))]

/-- State of a TLPPlugin instance. -/
structure TLPState where
  enabled : Bool
  config : Opts
  tlp_level : String
  font : Option String
  position : Int × Int
  font_size : Nat
  showFlag : Bool
  padding : Nat
  deriving DecidableEq, Repr

/-- TLPPlugin.__init__: default level is CLEAR, the most open. -/
def TLPPlugin.ctor (config : Opts) : TLPState :=
  { enabled := config.show_by_default.getD true
    config := config
    tlp_level := "CLEAR"
    font := none
    position := (20, 20)
    font_size := 18
    showFlag := true
    padding := 8 }

/-- TLPPlugin._validate_tlp_level: upper-cases the level, accepts the four
known labels, otherwise warns and answers CLEAR.  Returns the validated
level and the warnings printed.  (The non-string branch of the Python
code is outside this embedding, whose levels are strings.) -/
def TLPPlugin.validate_tlp_level (level : String) : String × List String :=
  let levelUpper := pyUpper level
  if ["RED", "AMBER", "GREEN", "CLEAR"].contains levelUpper then (levelUpper, [])
  else ("CLEAR", ["Aviso: Nivel TLP nao reconhecido. Usando TLP:CLEAR."])

/-- TLPPlugin.initializeApp: validates the configured default level and
resolves the drawing options; returns the state and warnings. -/
def TLPPlugin.initializeApp (env : Env) (app : AppConfig) (s : TLPState) :
    TLPState × List String :=
  let v := TLPPlugin.validate_tlp_level (s.config.default_tlp.getD "CLEAR")
  let s := { s with tlp_level := v.1 }
  let s := { s with position := s.config.position.getD s.position }
  let s := { s with font_size := s.config.font_size.getD s.font_size }
  let s := { s with padding := s.config.padding.getD 8 }
  let s := { s with showFlag :=
    match s.config.showOpt with
    | some b => b
    | none => match s.config.show_by_default with
      | some b => b
      | none => true }
  ({ s with font := loadFont env s.config app }, v.2)

/-- TLPPlugin.set_tlp_level: validates and stores the level; returns the
new state, whether the level changed, and the warnings printed. -/
def TLPPlugin.set_tlp_level (s : TLPState) (level : String) :
    TLPState × Bool × List String :=
  let v := TLPPlugin.validate_tlp_level level
  if v.1 ≠ s.tlp_level then ({ s with tlp_level := v.1 }, true, v.2)
  else (s, false, v.2)

/-- TLPPlugin.process_frame: badge text with per-level colors over a
filled box sized from the text bounding box plus padding. -/
def TLPPlugin.process_frame (env : Env) (s : TLPState) (frame : Frame) : Frame :=
  if !s.showFlag then frame
  else
    let tlpText := "TLP:" ++ s.tlp_level
    let colors := ((TLP_COLORS.find? (fun e => e.1 == s.tlp_level)).map (·.2)).getD
      ([255, 255, 255], [0, 0, 0])
    let bbox := env.textBBox s.position tlpText
    let textW := bbox.2.2.1 - bbox.1
    let textH := bbox.2.2.2 - bbox.2.1
    let x1 := s.position.1 - (s.padding : Int)
    let y1 := s.position.2 - (s.padding : Int)
    let x2 := s.position.1 + textW + (s.padding : Int)
    let y2 := s.position.2 + textH + (s.padding : Int)
    let frame := Frame.drawn frame (.rect x1 y1 x2 y2 colors.2)
    Frame.drawn frame (.text s.position tlpText colors.1)

/-! ### TailPlugin (plugins/tail.py)

Only the state, constructor, initialize, _read_file and update are
embedded: the rendering body of process_frame (word wrap, truncation) is
not referenced by any claim about this plugin. -/

/-- State of a TailPlugin instance. -/
structure TailState where
  enabled : Bool
  config : Opts
  file_path : String
  position : Int × Int
  width : Nat
  height : Nat
  font_size : Nat
  font : Option String
  text_color : List Nat
  background_color : List Nat
  opacity : Rat
  lines : Nat
  update_interval : Rat
  showFlag : Bool
  breakline : Bool
  following : Bool
  last_file_size : Int
  last_mtime : Rat
  content : List String
  last_update : Rat
  deriving DecidableEq, Repr

/-- TailPlugin.__init__. -/
def TailPlugin.ctor (config : Opts) : TailState :=
  { enabled := config.show_by_default.getD true
    config := config
    file_path := ""
    position := (50, 50)
    width := 400
    height := 200
    font_size := 14
    font := none
    text_color := [255, 255, 255, 255]
    background_color := [0, 0, 0, 150]
    opacity := 1
    lines := 10
    update_interval := 1 / 2
    showFlag := true
    breakline := false
    following := true
    last_file_size := 0
    last_mtime := 0
    content := []
    last_update := 0 }

/-- Python color normalization: a 4-list is kept, a 3-list gets alpha 255
appended, anything else leaves the previous value. -/
def colorWithAlpha (prev : List Nat) (c : Option (List Nat)) : List Nat :=
  match c with
  | some cs => if cs.length = 4 then cs else if cs.length = 3 then cs ++ [255] else prev
  | none => prev

/-- TailPlugin._read_file: placeholder line when the file is missing,
no-op when size and mtime are unchanged since last read, otherwise
re-reads and keeps the last (follow mode) or first N lines, rstripped. -/
def TailPlugin.read_file (info : Option FileInfo) (s : TailState) : TailState :=
  match info with
  | none => { s with content := ["[Arquivo nao encontrado: " ++ s.file_path ++ "]"] }
  | some fi =>
    if fi.size == s.last_file_size && fi.mtime == s.last_mtime then s
    else
      let s := { s with last_file_size := fi.size, last_mtime := fi.mtime }
      let picked :=
        if s.following then
          if s.lines < fi.lines.length then pySliceLast s.lines fi.lines else fi.lines
        else
          if s.lines < fi.lines.length then pySliceFirst s.lines fi.lines else fi.lines
      { s with content := picked.map rstripNL }

/-- TailPlugin.initializeApp: reads the options, reads the file once and
stamps last_update with the current time; returns the state, whether
initialize returned True, and the warnings printed. -/
def TailPlugin.initializeApp (env : Env) (app : AppConfig) (s : TailState) :
    TailState × Bool × List String :=
  let s := { s with file_path := s.config.file.getD "" }
  if s.file_path == "" then
    (s, false, ["Erro: Plugin tail requer configuracao file."])
  else
    let warns := if env.readFile s.file_path |>.isNone then
        ["Aviso: Arquivo nao existe. O plugin sera habilitado quando o arquivo for criado."]
      else []
    let s := { s with position := s.config.position.getD s.position }
    let s := { s with width := s.config.width.getD s.width }
    let s := { s with height := s.config.height.getD s.height }
    let s := { s with font_size := s.config.font_size.getD s.font_size }
    let s := { s with text_color := colorWithAlpha s.text_color s.config.text_color }
    let s := { s with background_color :=
      match s.config.background_color with
      | some cs => colorWithAlpha s.background_color (some cs)
      | none => [0, 0, 0, 255] }
    let s := { s with opacity := s.config.opacity.getD 1 }
    let s := { s with lines := s.config.lines.getD s.lines }
    let s := { s with update_interval := s.config.update_interval.getD s.update_interval }
    let s := { s with showFlag :=
      match s.config.showOpt with
      | some b => b
      | none => match s.config.show_by_default with
        | some b => b
        | none => s.showFlag }
    let s := { s with breakline := s.config.breakline.getD s.breakline }
    let s := { s with following := s.config.following.getD s.following }
    let s := { s with font := loadFont env s.config app }
    let s := TailPlugin.read_file (env.readFile s.file_path) s
    ({ s with last_update := env.now }, true, warns)

/-- TailPlugin.update: re-reads the file only when at least
update_interval has elapsed since last_update, then stamps last_update. -/
def TailPlugin.update (now : Rat) (info : Option FileInfo) (s : TailState) : TailState :=
  if s.update_interval ≤ now - s.last_update then
    { TailPlugin.read_file info s with last_update := now }
  else s

/-! ### PluginManager (overlayx.py) -/

/-- A live plugin instance held by the manager: one variant per concrete
plugin class of the plugins package. -/
inductive PluginObj where
  | clock (s : ClockState)
  | cpu (s : CPUState)
  | overlay (s : OverlayState)
  | crop (s : CropState)
  | tlp (s : TLPState)
  deriving DecidableEq, Repr

/-- The name attribute fixed by each plugin constructor. -/
def PluginObj.pname : PluginObj → String
  | .clock _ => "clock"
  | .cpu _ => "cpu"
  | .overlay _ => "overlay"
  | .crop _ => "crop"
  | .tlp _ => "tlp"

/-- The enabled attribute of the base Plugin class. -/
def PluginObj.enabledOf : PluginObj → Bool
  | .clock s => s.enabled
  | .cpu s => s.enabled
  | .overlay s => s.enabled
  | .crop s => s.enabled
  | .tlp s => s.enabled

/-- Assignment plugin.enabled = b performed by initialize_plugins. -/
def PluginObj.setEnabled (b : Bool) : PluginObj → PluginObj
  | .clock s => .clock { s with enabled := b }
  | .cpu s => .cpu { s with enabled := b }
  | .overlay s => .overlay { s with enabled := b }
  | .crop s => .crop { s with enabled := b }
  | .tlp s => .tlp { s with enabled := b }

/-- The frame transformation plugin.process_frame performs for the
manager (per-plugin cache/state evolution is modelled on the plugin
functions themselves and is not needed by the pipeline claims). -/
def PluginObj.procFrame (env : Env) : PluginObj → Frame → Frame
  | .clock s => fun f => (ClockPlugin.process_frame env s f).1
  | .cpu s => fun f => (CPUPlugin.process_frame env s f).1
  | .overlay s => fun f => OverlayPlugin.process_frame s f
  | .crop s => fun f => CropPlugin.process_frame s f
  | .tlp s => fun f => TLPPlugin.process_frame env s f

/-- The manager registry: the insertion-ordered id-to-plugin dict. -/
def Registry := List (String × PluginObj)

/-- PluginManager.PLUGIN_CLASSES: the known-type registry mapping type
names to plugin classes (note the tail type is absent). -/
inductive PluginClass where
  | clockC | cpuC | overlayC | cropC | tlpC
  deriving DecidableEq, Repr

def PLUGIN_CLASSES : List (String × PluginClass) :=
  [("clock", .clockC), ("cpu", .cpuC), ("overlay", .overlayC),
   ("crop", .cropC), ("tlp", .tlpC)]

/-- Lookup of a plugin type in PLUGIN_CLASSES. -/
def lookupClass (t : String) : Option PluginClass :=
  (PLUGIN_CLASSES.find? (fun e => e.1 == t)).map (·.2)

/-- plugin_class(config): each class constructor. -/
def constructObj (c : PluginClass) (config : Opts) : PluginObj :=
  match c with
  | .clockC => .clock (ClockPlugin.ctor config)
  | .cpuC => .cpu (CPUPlugin.ctor config)
  | .overlayC => .overlay (OverlayPlugin.ctor config)
  | .cropC => .crop (CropPlugin.ctor config)
  | .tlpC => .tlp (TLPPlugin.ctor config)

/-- plugin.initialize(app_config) for each concrete class (returning the
warnings each initialize prints); the embedded initializers are total,
mirroring the five classes whose initialize bodies only assign resolved
options. -/
def initializeObj (env : Env) (app : AppConfig) : PluginObj → PluginObj × List String
  | .clock s => (.clock (ClockPlugin.initializeApp env app s), [])
  | .cpu s => (.cpu (CPUPlugin.initializeApp env app s), [])
  | .overlay s =>
    let r := OverlayPlugin.initializeApp env app s
    (.overlay r.1, r.2)
  | .crop s => (.crop (CropPlugin.initializeApp app s), [])
  | .tlp s =>
    let r := TLPPlugin.initializeApp env app s
    (.tlp r.1, r.2)

/-- PluginManager.register_plugin: stores the plugin under the requested
id (default: the plugin name attribute), disambiguated with the _N
suffix while the id is already a registry key; returns the new registry
and the id used. -/
def PluginManager.register_plugin (reg : List (String × PluginObj)) (p : PluginObj)
    (instance_id : Option String) : List (String × PluginObj) × String :=
  let orig := instance_id.getD p.pname
  let used := freshId (reg.map (·.1)) orig
  (reg ++ [(used, p)], used)

/-- Outcome of initialize_plugins: the boolean result, the registry and
the log lines printed. -/
structure InitOut where
  ok : Bool
  registry : List (String × PluginObj)
  logs : List String
  deriving Repr

/-- The descriptor loop of PluginManager.initialize_plugins, parametrized
by the effect of plugin.initialize (pinit), so that an exception raised
by a concrete initialize is represented by an error value: an unknown
type is skipped with a warning, an initialize error is caught, logged and
aborts with a False return, and a successful plugin is registered. -/
def initPluginsLoop (pinit : PluginObj → Except String (PluginObj × List String)) :
    List InstanceConfig → List (String × PluginObj) → InitOut
  | [], reg => ⟨true, reg, []⟩
  | ic :: rest, reg =>
    match lookupClass ic.type with
    | none =>
      let r := initPluginsLoop pinit rest reg
      ⟨r.ok, r.registry, ("Aviso: Plugin tipo nao encontrado, ignorando: " ++ ic.type) :: r.logs⟩
    | some cls =>
      let p0 := constructObj cls ic.config
      let p1 := p0.setEnabled ic.enabled
      match pinit p1 with
      | .error e => ⟨false, reg, ["Erro ao inicializar plugin " ++ ic.type ++ ": " ++ e]⟩
      | .ok (p2, warns) =>
        let rp := PluginManager.register_plugin reg p2 (some ic.id)
        let r := initPluginsLoop pinit rest rp.1
        ⟨r.ok, r.registry, warns ++ r.logs⟩

/-- PluginManager._initialize_legacy_plugins: the fixed clock + cpu +
overlay set built from the legacy option mapping, registered then
initialized (initialize errors are caught per plugin and skipped). -/
def PluginManager.initialize_legacy_plugins (env : Env) (app : AppConfig)
    (clockCfg cpuCfg overlayCfg : Opts) : List (String × PluginObj) :=
  let reg : List (String × PluginObj) := []
  let reg := (PluginManager.register_plugin reg (.clock (ClockPlugin.ctor clockCfg)) none).1
  let reg := (PluginManager.register_plugin reg (.cpu (CPUPlugin.ctor cpuCfg)) none).1
  let reg := (PluginManager.register_plugin reg (.overlay (OverlayPlugin.ctor overlayCfg)) none).1
  reg.map (fun e => (e.1, (initializeObj env app e.2).1))

/-- PluginManager.initialize_plugins with the concrete (total) plugin
initializers: empty descriptor list falls back to the legacy set and
returns True, otherwise the descriptor loop runs. -/
def PluginManager.initialize_plugins (env : Env) (app : AppConfig)
    (descriptors : List InstanceConfig) : InitOut :=
  if descriptors.isEmpty then
    ⟨true, PluginManager.initialize_legacy_plugins env app {} {} {}, []⟩
  else
    initPluginsLoop (fun p => .ok (initializeObj env app p)) descriptors []

/-- PluginManager.process_frame: find the first plugin whose name is
crop, apply it first (with no enabled check), then apply every other
plugin in registration order, skipping the found crop id and disabled
plugins. -/
def PluginManager.process_frame (env : Env) (plugins : List (String × PluginObj))
    (frame : Frame) : Frame :=
  let cropFound := plugins.find? (fun e => e.2.pname == "crop")
  let frame1 := match cropFound with
    | some e => e.2.procFrame env frame
    | none => frame
  let cropName : Option String := cropFound.map (·.1)
  plugins.foldl
    (fun fr e => if cropName == some e.1 || !e.2.enabledOf then fr else e.2.procFrame env fr)
    frame1

/-- Specification-side view of one process_frame call: the ordered list
of (id, plugin) entries whose process_frame runs, crop first. -/
def appliedEntries (plugins : List (String × PluginObj)) : List (String × PluginObj) :=
  match plugins.find? (fun e => e.2.pname == "crop") with
  | none => plugins.filter (fun e => e.2.enabledOf)
  | some c => c :: plugins.filter (fun e => decide (e.1 ≠ c.1) && e.2.enabledOf)

/-- plugins/__init__.py __all__: the names exported by the plugins
package (TailPlugin is exported even though the manager cannot build
it). -/
def pluginsPackageAll : List String :=
  ["Plugin", "ClockPlugin", "CPUPlugin", "OverlayPlugin", "CropPlugin", "TLPPlugin",
   "TailPlugin"]

/-! ### Lemmas and claim theorems -/
theorem digitChar_toNat {d : Nat} (h : d < 10) : (Nat.digitChar d).toNat = 48 + d := by
  interval_cases d <;> rfl

theorem decDigits_from : ∀ (l : List Char) (a : Nat),
    l.foldl (fun a c => a * 10 + (c.toNat - 48)) a = a * 10 ^ l.length + decDigits l := by
  intro l
  induction l with
  | nil => intro a; simp [decDigits]
  | cons c t ih =>
    intro a
    have h2 : decDigits (c :: t) = (0 * 10 + (c.toNat - 48)) * 10 ^ t.length + decDigits t := by
      rw [decDigits, List.foldl_cons]; exact ih _
    rw [List.foldl_cons, ih _, h2, List.length_cons]
    ring

theorem decDigits_natDigitsGo : ∀ (fuel n : Nat) (acc : List Char), n < 10 ^ fuel →
    decDigits (natDigitsGo fuel n acc) = n * 10 ^ acc.length + decDigits acc := by
  intro fuel
  induction fuel with
  | zero =>
    intro n acc h
    have : n = 0 := by simpa using h
    subst this
    simp [natDigitsGo]
  | succ fuel ih =>
    intro n acc h
    rw [natDigitsGo]
    by_cases hn : n < 10
    · rw [if_pos hn, decDigits, List.foldl_cons, decDigits_from, digitChar_toNat hn]
      have he : 0 * 10 + ((48 + n) - 48) = n := by omega
      rw [he]
    · rw [if_neg hn]
      have h10 : n / 10 < 10 ^ fuel := by
        rw [Nat.div_lt_iff_lt_mul (by norm_num)]
        calc n < 10 ^ (fuel + 1) := h
          _ = 10 ^ fuel * 10 := by ring
      rw [ih (n / 10) _ h10, List.length_cons, decDigits, List.foldl_cons, decDigits_from,
        digitChar_toNat (Nat.mod_lt _ (by omega))]
      have he : 0 * 10 + ((48 + n % 10) - 48) = n % 10 := by omega
      rw [he]
      have key : n / 10 * 10 ^ (acc.length + 1) + n % 10 * 10 ^ acc.length
          = n * 10 ^ acc.length := by
        rw [pow_succ]
        have hqr : n = 10 * (n / 10) + n % 10 := by omega
        calc n / 10 * (10 ^ acc.length * 10) + n % 10 * 10 ^ acc.length
            = (10 * (n / 10) + n % 10) * 10 ^ acc.length := by ring
          _ = n * 10 ^ acc.length := by rw [← hqr]
      rw [show decDigits acc = List.foldl (fun a c => a * 10 + (c.toNat - 48)) 0 acc from rfl,
        ← key]
      ring

theorem decDigits_natDigits (n : Nat) : decDigits (natDigits n) = n := by
  have h : n < 10 ^ (n + 1) :=
    lt_of_lt_of_le (Nat.lt_pow_self (by norm_num) n)
      (Nat.pow_le_pow_right (by norm_num) (by omega))
  have := decDigits_natDigitsGo (n + 1) n [] h
  simpa [natDigits, decDigits] using this

theorem natDigits_injective : Function.Injective natDigits := by
  intro a b h
  have ha := decDigits_natDigits a
  rw [h, decDigits_natDigits] at ha
  omega

theorem decimalRepr_injective : Function.Injective decimalRepr := by
  intro a b h
  apply natDigits_injective
  have : (decimalRepr a).data = (decimalRepr b).data := by rw [h]
  simpa [decimalRepr] using this

theorem natDigits_ne_nil (n : Nat) : natDigits n ≠ [] := by
  intro hh
  by_cases hz : n = 0
  · subst hz; simp [natDigits, natDigitsGo] at hh
  · have := decDigits_natDigits n
    rw [hh] at this
    simp [decDigits] at this
    omega

example : decimalRepr 0 = "0" := rfl
example : decimalRepr 1 = "1" := rfl
example : decimalRepr 12 = "12" := rfl
example : decimalRepr 907 = "907" := rfl

example : containsSub "%z" "%H:%M %z" = true := rfl
example : containsSub "%Z" "%H:%M:%S" = false := rfl

example : rstripNL "abc\n" = "abc" := rfl

theorem decimalRepr_length_pos (n : Nat) : 0 < (decimalRepr n).length := by
  rw [decimalRepr]
  cases hnd : natDigits n with
  | nil => exact absurd hnd (natDigits_ne_nil n)
  | cons a t => simp [String.length]

theorem candidate_suffix_data (orig r : String) :
    ((orig ++ "_" ++ r).data).drop ((orig ++ "_").data.length) = r.data := by
  rw [String.data_append]
  exact List.drop_left _ _

theorem candidateId_injective (orig : String) : Function.Injective (candidateId orig) := by
  intro i j h
  match i, j with
  | 0, 0 => rfl
  | 0, k + 1 =>
    exfalso
    have hl : (candidateId orig 0).length = (candidateId orig (k + 1)).length := by rw [h]
    simp only [candidateId, String.length_append] at hl
    have := decimalRepr_length_pos (k + 1)
    omega
  | k + 1, 0 =>
    exfalso
    have hl : (candidateId orig (k + 1)).length = (candidateId orig 0).length := by rw [h]
    simp only [candidateId, String.length_append] at hl
    have := decimalRepr_length_pos (k + 1)
    omega
  | i + 1, j + 1 =>
    simp only [candidateId] at h
    have hdd : ((orig ++ "_" ++ decimalRepr (i + 1)).data).drop ((orig ++ "_").data.length)
        = ((orig ++ "_" ++ decimalRepr (j + 1)).data).drop ((orig ++ "_").data.length) := by
      rw [h]
    rw [candidate_suffix_data, candidate_suffix_data] at hdd
    have heq : decimalRepr (i + 1) = decimalRepr (j + 1) := by
      cases hi : decimalRepr (i + 1) with | _ d1 =>
      cases hj : decimalRepr (j + 1) with | _ d2 =>
      rw [hi, hj] at hdd
      simp_all
    have := decimalRepr_injective heq
    omega

theorem freshIdGo_not_mem (taken : List String) (orig : String) :
    ∀ fuel j, (∃ i < fuel, candidateId orig (j + i) ∉ taken) →
      freshIdGo taken orig fuel (j + 1) (candidateId orig j) ∉ taken := by
  intro fuel
  induction fuel with
  | zero => intro j h; exact absurd h (by simp)
  | succ fuel ih =>
    intro j h
    rw [freshIdGo]
    by_cases hc : candidateId orig j ∈ taken
    · rw [if_pos hc]
      have hcan : (orig ++ "_" ++ decimalRepr (j + 1)) = candidateId orig (j + 1) := rfl
      rw [hcan]
      apply ih (j + 1)
      obtain ⟨i, hi, hni⟩ := h
      match i with
      | 0 => exact absurd hc (by simpa using hni)
      | i + 1 =>
        refine ⟨i, by omega, ?_⟩
        have harith : j + 1 + i = j + (i + 1) := by omega
        rw [harith]; exact hni
    · rw [if_neg hc]; exact hc

theorem exists_fresh_candidate (taken : List String) (orig : String) (j : Nat) :
    ∃ i < taken.length + 1, candidateId orig (j + i) ∉ taken := by
  by_contra hall
  push_neg at hall
  set L := (List.range (taken.length + 1)).map (fun i => candidateId orig (j + i)) with hL
  have hnd : L.Nodup := by
    refine List.Nodup.map ?_ (List.nodup_range _)
    intro a b hab
    have := candidateId_injective orig hab
    omega
  have hsub : L ⊆ taken := by
    intro x hx
    rw [hL, List.mem_map] at hx
    obtain ⟨i, hi, rfl⟩ := hx
    exact hall i (List.mem_range.mp hi)
  have := (List.subperm_of_subset hnd hsub).length_le
  simp [hL] at this

theorem freshId_not_mem (taken : List String) (orig : String) :
    freshId taken orig ∉ taken := by
  have h0 : candidateId orig 0 = orig := rfl
  have := freshIdGo_not_mem taken orig (taken.length + 1) 0
    (exists_fresh_candidate taken orig 0)
  simpa [freshId, h0] using this

theorem foldl_skip_eq_filter {α : Type} (g : Frame → α → Frame) (skip keep : α → Bool)
    (h : ∀ x, skip x = !keep x) :
    ∀ (l : List α) (f : Frame),
      l.foldl (fun fr x => if skip x then fr else g fr x) f
        = (l.filter keep).foldl g f := by
  intro l
  induction l with
  | nil => intro f; rfl
  | cons x t ih =>
    intro f
    rw [List.foldl_cons, List.filter_cons, h x]
    by_cases hk : keep x = true
    · simp only [hk, Bool.not_true, if_true]
      simp only [show ((false : Bool) = true) = False by simp, if_false, List.foldl_cons]
      exact ih _
    · have hk' : keep x = false := by simpa using hk
      simp only [hk', Bool.not_false, if_true]
      simp only [show ((false : Bool) = true) = False by simp, if_false]
      exact ih _

/-- One call to the manager pipeline is the left fold of the applied
entries over the incoming frame. -/
theorem process_frame_eq_foldl (env : Env) (plugins : List (String × PluginObj)) (f : Frame) :
    PluginManager.process_frame env plugins f
      = (appliedEntries plugins).foldl (fun fr e => e.2.procFrame env fr) f := by
  rw [PluginManager.process_frame, appliedEntries]
  cases hfind : plugins.find? (fun e => e.2.pname == "crop") with
  | none =>
    simp only [hfind]
    exact foldl_skip_eq_filter (fun fr (e : String × PluginObj) => e.2.procFrame env fr)
      (fun e => (none : Option String) == some e.1 || !e.2.enabledOf)
      (fun e => e.2.enabledOf)
      (by intro e; cases h2 : e.2.enabledOf <;> simp) plugins f
  | some c =>
    simp only [hfind, List.foldl_cons]
    exact foldl_skip_eq_filter (fun fr (e : String × PluginObj) => e.2.procFrame env fr)
      (fun e => (some c.1 : Option String) == some e.1 || !e.2.enabledOf)
      (fun e => decide (e.1 ≠ c.1) && e.2.enabledOf)
      (by
        intro e
        show (some c.1 == some e.1 || !e.2.enabledOf) = !(decide (e.1 ≠ c.1) && e.2.enabledOf)
        by_cases h1 : c.1 = e.1
        · have hb : (some c.1 == some e.1) = true := beq_iff_eq.mpr (by rw [h1])
          have hd : (decide (e.1 ≠ c.1)) = false := decide_eq_false (by simp [h1])
          rw [hb, hd]
          simp
        · have hb : (some c.1 == some e.1) = false :=
            beq_eq_false_iff_ne.mpr (by simpa using h1)
          have hd : (decide (e.1 ≠ c.1)) = true := decide_eq_true (fun hh => h1 hh.symm)
          rw [hb, hd]
          cases h2 : e.2.enabledOf <;> simp) plugins (c.2.procFrame env f)


theorem setEnabled_pname (b : Bool) (p : PluginObj) : (p.setEnabled b).pname = p.pname := by
  cases p <;> rfl

theorem setEnabled_enabledOf (b : Bool) (p : PluginObj) : (p.setEnabled b).enabledOf = b := by
  cases p <;> rfl

theorem initializeObj_pname (env : Env) (app : AppConfig) (p : PluginObj) :
    ((initializeObj env app p).1).pname = p.pname := by
  cases p <;> rfl

theorem constructObj_pname (t : String) (cls : PluginClass) (cfg : Opts)
    (h : lookupClass t = some cls) : (constructObj cls cfg).pname = t := by
  rw [lookupClass] at h
  cases hf : PLUGIN_CLASSES.find? (fun e => e.1 == t) with
  | none => rw [hf] at h; simp at h
  | some e =>
    rw [hf] at h
    simp at h
    have hmem := List.mem_of_find?_eq_some hf
    have hpred := List.find?_some hf
    have ht : e.1 = t := by simpa using hpred
    rw [← h, ← ht]
    fin_cases hmem <;> rfl

/-- C5 counterexample: the crop plugin has no disabled gate in its
process_frame: a crop instance whose enabled flag is false still
transforms every frame (ImageOps.fit to the target size), so a disabled
plugin instance's process_frame is not always the identity. -/
theorem C5_counterexample :
    (PluginObj.crop ⟨false, {}, (640, 480)⟩).enabledOf = false ∧
    CropPlugin.process_frame ⟨false, {}, (640, 480)⟩ (.src 1280 720 0)
      = .fitTo 640 480 (.src 1280 720 0) ∧
    CropPlugin.process_frame ⟨false, {}, (640, 480)⟩ (.src 1280 720 0)
      ≠ .src 1280 720 0 := by
  decide

/-- C5 (amended): for the flag-gated plugins the claim cites, a disabled
instance's process_frame is the identity with no observable side effect:
the clock plugin with its visibility flag cleared returns the incoming
frame untouched and prints nothing (the embedded function has no state
writes at all), and the overlay plugin with its enabled flag cleared
returns the frame with no paste performed.  The crop plugin is the
exception recorded by the counterexample. -/
theorem C5_disabled_identity :
    (∀ (env : Env) (s : ClockState) (f : Frame), s.showFlag = false →
      ClockPlugin.process_frame env s f = (f, [])) ∧
    (∀ (s : OverlayState) (f : Frame), s.enabled = false →
      OverlayPlugin.process_frame s f = f) := by
  constructor
  · intro env s f h
    simp [ClockPlugin.process_frame, h]
  · intro s f h
    simp [OverlayPlugin.process_frame, h]

theorem C5_witness :
    ClockPlugin.process_frame {} { ClockPlugin.ctor {} with showFlag := false }
        (.src 640 480 0) = (.src 640 480 0, []) ∧
    OverlayPlugin.process_frame { OverlayPlugin.ctor {} with enabled := false }
        (.src 640 480 0) = .src 640 480 0 :=
  ⟨C5_disabled_identity.1 {} _ _ rfl, C5_disabled_identity.2 _ _ rfl⟩

/-- C8: an unrecognized TLP level string (one whose upper-casing is none
of RED, AMBER, GREEN, CLEAR) is validated to CLEAR with a warning; both
the configured default at initialize time and set_tlp_level leave the
level at CLEAR, and the embedded functions are total, so no exception
can be raised. -/
theorem C8_invalid_level_falls_back (level : String)
    (h : (["RED", "AMBER", "GREEN", "CLEAR"].contains (pyUpper level)) = false) :
    TLPPlugin.validate_tlp_level level
      = ("CLEAR", ["Aviso: Nivel TLP nao reconhecido. Usando TLP:CLEAR."]) ∧
    (∀ s : TLPState, ((TLPPlugin.set_tlp_level s level).1).tlp_level = "CLEAR") ∧
    (∀ (env : Env) (app : AppConfig) (opts : Opts), opts.default_tlp = some level →
      ((TLPPlugin.initializeApp env app (TLPPlugin.ctor opts)).1).tlp_level = "CLEAR") := by
  have hv : TLPPlugin.validate_tlp_level level
      = ("CLEAR", ["Aviso: Nivel TLP nao reconhecido. Usando TLP:CLEAR."]) := by
    rw [TLPPlugin.validate_tlp_level]
    simp only [h]
    rfl
  refine ⟨hv, ?_, ?_⟩
  · intro s
    rw [TLPPlugin.set_tlp_level, hv]
    by_cases he : ("CLEAR" : String) ≠ s.tlp_level
    · rw [if_pos he]
    · rw [if_neg he]
      exact (not_not.mp he).symm
  · intro env app opts hdef
    rw [TLPPlugin.initializeApp]
    simp only [TLPPlugin.ctor, hdef, Option.getD_some, hv]

theorem C8_witness :
    TLPPlugin.validate_tlp_level "ultraviolet"
      = ("CLEAR", ["Aviso: Nivel TLP nao reconhecido. Usando TLP:CLEAR."]) ∧
    ((TLPPlugin.set_tlp_level { TLPPlugin.ctor {} with tlp_level := "RED" }
      "ultraviolet").1).tlp_level = "CLEAR" ∧
    ((TLPPlugin.initializeApp {} {}
      (TLPPlugin.ctor { default_tlp := some "ultraviolet" })).1).tlp_level = "CLEAR" :=
  ⟨(C8_invalid_level_falls_back "ultraviolet" (by decide)).1,
   (C8_invalid_level_falls_back "ultraviolet" (by decide)).2.1 _,
   (C8_invalid_level_falls_back "ultraviolet" (by decide)).2.2 {} {} _ rfl⟩

/-- C9: the known-type registry holds exactly clock, cpu, overlay, crop
and tlp; the type tail is unknown to it, so a tail descriptor is skipped
with a warning and nothing is registered, although TailPlugin is an
exported name of the plugins package. -/
theorem C9_tail_type_unknown :
    PLUGIN_CLASSES.map (fun e => e.1) = ["clock", "cpu", "overlay", "crop", "tlp"] ∧
    lookupClass "tail" = none ∧
    "TailPlugin" ∈ pluginsPackageAll ∧
    (let out := PluginManager.initialize_plugins {} {} [{ type := "tail", id := "t" }]
     out.ok = true ∧ out.registry = [] ∧ out.logs ≠ []) := by
  decide

/-- C2 counterexample: the claim. With the recognized zone
America/Sao_Paulo configured and the default format %H:%M:%S (which has
no zone-aware directive), the time rendered by process_frame is the
naive local time, not a time in the configured zone, so a configured
named timezone is not always attached. -/
theorem C2_counterexample :
    (let env : Env := { zones := ["America/Sao_Paulo"] }
     let s := ClockPlugin.initializeApp env {}
       (ClockPlugin.ctor { timezone := some "America/Sao_Paulo" })
     s.timezone = some "America/Sao_Paulo" ∧
     s.format_str = "%H:%M:%S" ∧
     (ClockPlugin.get_current_time env.zones s).1 = CTime.naiveLocal ∧
     (ClockPlugin.get_current_time env.zones s).1 ≠ CTime.awareZone "America/Sao_Paulo" ∧
     (ClockPlugin.process_frame env s (.src 640 480 0)).1
       = .drawn (.drawn (.src 640 480 0) (.rect (-5) (-5) 5 5 [0, 0, 0, 100]))
           (.timeText (1080, 20) CTime.naiveLocal "")) := by
  decide

/-- C2 (amended): with a named timezone configured (not the literal
local), the zone is attached only when the format string contains a
zone-aware directive (%z or %Z): without one the plugin uses naive local
time whatever the zone name; with one, UTC and names found in the zone
database are attached, and an unrecognized name logs a warning and falls
back to naive local time.  The rendered text of process_frame uses
exactly the datetime so computed, and the zone name is never validated
at initialize time, so startup cannot fail on it. -/
theorem C2_amended (zones : List String) (s : ClockState) (name : String)
    (htz : s.timezone = some name) (hloc : pyLower name ≠ "local") :
    (needsTzOf s.format_str = false →
      ClockPlugin.get_current_time zones s = (.naiveLocal, [])) ∧
    (needsTzOf s.format_str = true → pyUpper name = "UTC" →
      ClockPlugin.get_current_time zones s = (.awareUTC, [])) ∧
    (needsTzOf s.format_str = true → pyUpper name ≠ "UTC" → zones.contains name = true →
      ClockPlugin.get_current_time zones s = (.awareZone name, [])) ∧
    (needsTzOf s.format_str = true → pyUpper name ≠ "UTC" → zones.contains name = false →
      ClockPlugin.get_current_time zones s
        = (.naiveLocal, ["Aviso: Timezone nao reconhecida. Usando hora local."])) ∧
    (∀ (env : Env) (f : Frame), s.showFlag = true →
      (ClockPlugin.process_frame env s f).1
        = .drawn (.drawn f (.rect
            ((env.textBBox s.position (env.strftime
              (ClockPlugin.get_current_time env.zones s).1 s.format_str)).1 - 5)
            ((env.textBBox s.position (env.strftime
              (ClockPlugin.get_current_time env.zones s).1 s.format_str)).2.1 - 5)
            ((env.textBBox s.position (env.strftime
              (ClockPlugin.get_current_time env.zones s).1 s.format_str)).2.2.1 + 5)
            ((env.textBBox s.position (env.strftime
              (ClockPlugin.get_current_time env.zones s).1 s.format_str)).2.2.2 + 5)
            [0, 0, 0, 100]))
          (.timeText s.position (ClockPlugin.get_current_time env.zones s).1
            (env.strftime (ClockPlugin.get_current_time env.zones s).1 s.format_str))) := by
  have hbeq : (pyLower name == "local") = false := beq_eq_false_iff_ne.mpr hloc
  refine ⟨?_, ?_, ?_, ?_, ?_⟩
  · intro hfmt
    rw [ClockPlugin.get_current_time, htz]
    simp [hbeq, hfmt]
  · intro hfmt hutc
    rw [ClockPlugin.get_current_time, htz]
    have hu : (pyUpper name == "UTC") = true := beq_iff_eq.mpr hutc
    simp [hbeq, hfmt, hu]
  · intro hfmt hutc hzone
    rw [ClockPlugin.get_current_time, htz]
    have hu : (pyUpper name == "UTC") = false := beq_eq_false_iff_ne.mpr hutc
    have hmem : name ∈ zones := by simpa using hzone
    simp [hbeq, hfmt, hu, hmem]
  · intro hfmt hutc hzone
    rw [ClockPlugin.get_current_time, htz]
    have hu : (pyUpper name == "UTC") = false := beq_eq_false_iff_ne.mpr hutc
    have hmem : name ∉ zones := by simpa using hzone
    simp [hbeq, hfmt, hu, hmem]
  · intro env f hshow
    simp [ClockPlugin.process_frame, hshow]

theorem C2_witness :
    ClockPlugin.get_current_time ["America/Sao_Paulo"]
      { (ClockPlugin.ctor {}) with
        timezone := some "America/Sao_Paulo"
        format_str := "%H:%M %Z" }
      = (.awareZone "America/Sao_Paulo", []) :=
  (C2_amended ["America/Sao_Paulo"] _ "America/Sao_Paulo" rfl
    (by decide)).2.2.1 (by decide) (by decide) (by decide)

/-- C3: inside the descriptor loop of initialize_plugins, an exception
from the initialize of a type-valid plugin is caught, logged and makes
the whole call return False at once (descriptors after it are not
processed and nothing more is registered), while a descriptor whose type
is unknown only contributes a warning and the loop continues unchanged.
(The five known constructors are assignment-only, so construction itself
is total in this embedding; an exception there would propagate, which is
fatal as well.) -/
theorem C3_fatal_init_vs_skip
    (pinit : PluginObj → Except String (PluginObj × List String))
    (d : InstanceConfig) (rest : List InstanceConfig) (reg : List (String × PluginObj)) :
    (∀ cls e, lookupClass d.type = some cls →
      pinit ((constructObj cls d.config).setEnabled d.enabled) = .error e →
      initPluginsLoop pinit (d :: rest) reg
        = ⟨false, reg, ["Erro ao inicializar plugin " ++ d.type ++ ": " ++ e]⟩) ∧
    (lookupClass d.type = none →
      initPluginsLoop pinit (d :: rest) reg
        = ⟨(initPluginsLoop pinit rest reg).ok,
           (initPluginsLoop pinit rest reg).registry,
           ("Aviso: Plugin tipo nao encontrado, ignorando: " ++ d.type)
             :: (initPluginsLoop pinit rest reg).logs⟩) := by
  constructor
  · intro cls e hcls herr
    simp only [initPluginsLoop, hcls, herr]
  · intro hnone
    simp only [initPluginsLoop, hnone]

theorem C3_witness :
    (initPluginsLoop (fun _ => .error "boom")
        [{ type := "clock", id := "c" }] []
      = ⟨false, [], ["Erro ao inicializar plugin clock: boom"]⟩) ∧
    (initPluginsLoop (fun _ => .error "boom")
        [{ type := "mystery", id := "m" }] []
      = ⟨true, [], ["Aviso: Plugin tipo nao encontrado, ignorando: mystery"]⟩) :=
  ⟨(C3_fatal_init_vs_skip (fun _ => .error "boom") { type := "clock", id := "c" } [] []).1
      PluginClass.clockC "boom" rfl rfl,
   (C3_fatal_init_vs_skip (fun _ => .error "boom") { type := "mystery", id := "m" } [] []).2
      rfl⟩

/-- C1 counterexample: a clock descriptor with enabled = false is still
constructed, initialized and registered (as a disabled instance), so
initialize_plugins does not register only the enabled descriptors. -/
theorem C1_counterexample :
    (let out := PluginManager.initialize_plugins {} {}
        [{ type := "clock", id := "c", enabled := false }]
     out.ok = true ∧
     out.registry.map (fun e => (e.1, e.2.pname, e.2.enabledOf))
       = [("c", "clock", false)]) := by
  decide

theorem initPluginsLoop_total (env : Env) (app : AppConfig) :
    ∀ (ds : List InstanceConfig) (reg : List (String × PluginObj)),
      (initPluginsLoop (fun p => .ok (initializeObj env app p)) ds reg).ok = true ∧
      (initPluginsLoop (fun p => .ok (initializeObj env app p)) ds reg).registry.map
          (fun e => e.2.pname)
        = reg.map (fun e => e.2.pname)
          ++ (ds.filter (fun d => (lookupClass d.type).isSome)).map (fun d => d.type) ∧
      ((reg.map (fun e => e.1)).Nodup →
        ((initPluginsLoop (fun p => .ok (initializeObj env app p)) ds reg).registry.map
          (fun e => e.1)).Nodup) := by
  intro ds
  induction ds with
  | nil =>
    intro reg
    exact ⟨rfl, by simp [initPluginsLoop], fun h => by simpa [initPluginsLoop] using h⟩
  | cons d rest ih =>
    intro reg
    cases hl : lookupClass d.type with
    | none =>
      have ihr := ih reg
      refine ⟨?_, ?_, ?_⟩
      · simp only [initPluginsLoop, hl]
        exact ihr.1
      · simp only [initPluginsLoop, hl, List.filter_cons, Option.isSome_none,
          Bool.false_eq_true, if_false]
        exact ihr.2.1
      · intro hnd
        simp only [initPluginsLoop, hl]
        exact ihr.2.2 hnd
    | some cls =>
      have hpn : ((initializeObj env app
          ((constructObj cls d.config).setEnabled d.enabled)).1).pname = d.type := by
        rw [initializeObj_pname, setEnabled_pname, constructObj_pname d.type cls _ hl]
      have hfr := freshId_not_mem (reg.map (fun e => e.1)) d.id
      have ihr := ih (reg ++ [(freshId (reg.map (fun e => e.1)) d.id,
        (initializeObj env app ((constructObj cls d.config).setEnabled d.enabled)).1)])
      refine ⟨?_, ?_, ?_⟩
      · simp only [initPluginsLoop, hl, PluginManager.register_plugin, Option.getD_some]
        exact ihr.1
      · simp only [initPluginsLoop, hl, PluginManager.register_plugin, Option.getD_some,
          List.filter_cons, Option.isSome_some, if_true, List.map_cons]
        rw [ihr.2.1]
        simp [hpn]
      · intro hnd
        simp only [initPluginsLoop, hl, PluginManager.register_plugin, Option.getD_some]
        apply ihr.2.2
        simp only [List.map_append, List.map_cons, List.map_nil]
        rw [List.nodup_append]
        refine ⟨hnd, List.nodup_singleton _, ?_⟩
        intro x hx
        simp only [List.mem_singleton]
        intro hxe
        rw [hxe] at hx
        exact hfr hx

/-- C1 (amended): for every nonempty descriptor list, initialize_plugins
succeeds and registers exactly the type-valid descriptors, in order,
whether their enabled flag is true or false (the flag is stored on the
registered instance); descriptors of unknown type are not registered;
and every registered id is distinct (collisions resolved by the _N
suffix). -/
theorem C1_amended (env : Env) (app : AppConfig) (ds : List InstanceConfig)
    (hne : ds ≠ []) :
    (PluginManager.initialize_plugins env app ds).ok = true ∧
    (PluginManager.initialize_plugins env app ds).registry.map (fun e => e.2.pname)
      = (ds.filter (fun d => (lookupClass d.type).isSome)).map (fun d => d.type) ∧
    ((PluginManager.initialize_plugins env app ds).registry.map (fun e => e.1)).Nodup := by
  have hni : ds.isEmpty = false := by
    cases ds with
    | nil => exact absurd rfl hne
    | cons a t => rfl
  rw [PluginManager.initialize_plugins, hni]
  simp only [Bool.false_eq_true, if_false]
  have h := initPluginsLoop_total env app ds []
  exact ⟨h.1, by simpa using h.2.1, h.2.2 (by simp)⟩

theorem C1_witness :
    ([({ type := "clock", id := "a" } : InstanceConfig),
      { type := "tail", id := "t" },
      { type := "cpu", id := "a", enabled := false }] ≠ []) ∧
    ((PluginManager.initialize_plugins {} {}
        [{ type := "clock", id := "a" }, { type := "tail", id := "t" },
         { type := "cpu", id := "a", enabled := false }]).ok = true ∧
     (PluginManager.initialize_plugins {} {}
        [{ type := "clock", id := "a" }, { type := "tail", id := "t" },
         { type := "cpu", id := "a", enabled := false }]).registry.map (fun e => e.2.pname)
       = ([({ type := "clock", id := "a" } : InstanceConfig),
           { type := "tail", id := "t" },
           { type := "cpu", id := "a", enabled := false }].filter
            (fun d => (lookupClass d.type).isSome)).map (fun d => d.type) ∧
     ((PluginManager.initialize_plugins {} {}
        [{ type := "clock", id := "a" }, { type := "tail", id := "t" },
         { type := "cpu", id := "a", enabled := false }]).registry.map
            (fun e => e.1)).Nodup) :=
  ⟨by decide, C1_amended {} {} _ (by decide)⟩

example :
    (PluginManager.initialize_plugins {} {}
        [{ type := "clock", id := "a" }, { type := "tail", id := "t" },
         { type := "cpu", id := "a", enabled := false }]).registry.map
      (fun e => (e.1, e.2.pname, e.2.enabledOf))
      = [("a", "clock", true), ("a_1", "cpu", false)] := by decide

/-- C4 counterexample: a registry holding two enabled crop-type plugins
makes one process_frame call apply a crop transformation twice (the
first via the special-cased step, the second in the general pass), so
the crop/fit plugin does not run exactly once for every registered
plugin set. -/
theorem C4_counterexample :
    (let reg : List (String × PluginObj) :=
      [("a", .crop ⟨true, {}, (640, 480)⟩), ("b", .crop ⟨true, {}, (640, 480)⟩)]
     PluginManager.process_frame {} reg (.src 1280 720 0)
       = .fitTo 640 480 (.fitTo 640 480 (.src 1280 720 0)) ∧
     ((appliedEntries reg).filter (fun e => e.2.pname == "crop")).length = 2) := by
  decide

/-- C4 (amended): the first crop-type plugin found in the registry is
applied exactly once and before every other applied plugin, regardless
of where it was registered; when it is the only crop-type plugin in the
registry, a crop-type transformation runs exactly once per call (further
crop-type instances would run again in the general enabled pass). -/
theorem C4_amended (env : Env) (plugins : List (String × PluginObj))
    (c : String × PluginObj)
    (hf : plugins.find? (fun e => e.2.pname == "crop") = some c)
    (honly : ∀ e ∈ plugins, e.2.pname = "crop" → e.1 = c.1) :
    (appliedEntries plugins).head? = some c ∧
    ((appliedEntries plugins).filter (fun e => e.2.pname == "crop")).length = 1 ∧
    (∀ f, PluginManager.process_frame env plugins f
      = (appliedEntries plugins).foldl (fun fr e => e.2.procFrame env fr) f) := by
  have happ : appliedEntries plugins
      = c :: plugins.filter (fun e => decide (e.1 ≠ c.1) && e.2.enabledOf) := by
    rw [appliedEntries, hf]
  refine ⟨by rw [happ]; rfl, ?_, fun f => process_frame_eq_foldl env plugins f⟩
  have hcc : (c.2.pname == "crop") = true := by simpa using List.find?_some hf
  rw [happ, List.filter_cons, hcc]
  simp only [if_true, List.length_cons]
  have hnil : (plugins.filter (fun e => decide (e.1 ≠ c.1) && e.2.enabledOf)).filter
      (fun e => e.2.pname == "crop") = [] := by
    rw [List.filter_eq_nil_iff]
    intro e he
    have hmem : e ∈ plugins := List.mem_of_mem_filter he
    have hcond : e.1 ≠ c.1 ∧ e.2.enabledOf = true := by
      simpa using List.of_mem_filter he
    intro hp
    exact hcond.1 (honly e hmem (by simpa using hp))
  rw [hnil]
  rfl

theorem C4_witness :
    (appliedEntries [("t", .tlp (TLPPlugin.ctor {})),
        ("c", .crop ⟨true, {}, (640, 480)⟩)]).head?
      = some ("c", .crop ⟨true, {}, (640, 480)⟩) ∧
    ((appliedEntries [("t", .tlp (TLPPlugin.ctor {})),
        ("c", .crop ⟨true, {}, (640, 480)⟩)]).filter
      (fun e => e.2.pname == "crop")).length = 1 ∧
    (∀ f, PluginManager.process_frame {} [("t", .tlp (TLPPlugin.ctor {})),
        ("c", .crop ⟨true, {}, (640, 480)⟩)] f
      = (appliedEntries [("t", .tlp (TLPPlugin.ctor {})),
          ("c", .crop ⟨true, {}, (640, 480)⟩)]).foldl
        (fun fr e => e.2.procFrame {} fr) f) :=
  C4_amended {} _ _ rfl (by decide)

/-- C10: the crop-named plugin found by process_frame is applied to the
frame first even when its enabled flag is false: the pipeline is the
fold of the remaining applied entries over the crop output, and the
enabled-flag filter applies only to the non-crop entries iterated after
the crop step. -/
theorem C10_crop_applied_when_disabled (env : Env) (plugins : List (String × PluginObj))
    (c : String × PluginObj)
    (hf : plugins.find? (fun e => e.2.pname == "crop") = some c)
    (hdis : c.2.enabledOf = false) :
    (appliedEntries plugins).head? = some c ∧
    (∀ e ∈ (appliedEntries plugins).tail, e.2.enabledOf = true) ∧
    (∀ f, PluginManager.process_frame env plugins f
      = ((appliedEntries plugins).tail).foldl (fun fr e => e.2.procFrame env fr)
          (c.2.procFrame env f)) := by
  have happ : appliedEntries plugins
      = c :: plugins.filter (fun e => decide (e.1 ≠ c.1) && e.2.enabledOf) := by
    rw [appliedEntries, hf]
  refine ⟨by rw [happ]; rfl, ?_, ?_⟩
  · intro e he
    rw [happ] at he
    simp only [List.tail_cons] at he
    have hcond : e.1 ≠ c.1 ∧ e.2.enabledOf = true := by
      simpa using List.of_mem_filter he
    exact hcond.2
  · intro f
    rw [process_frame_eq_foldl env plugins f, happ, List.foldl_cons, List.tail_cons]

theorem C10_witness :
    (appliedEntries [("crop", .crop ⟨false, {}, (320, 200)⟩),
        ("clock", .clock (ClockPlugin.ctor {}))]).head?
      = some ("crop", .crop ⟨false, {}, (320, 200)⟩) ∧
    (∀ e ∈ (appliedEntries [("crop", .crop ⟨false, {}, (320, 200)⟩),
        ("clock", .clock (ClockPlugin.ctor {}))]).tail, e.2.enabledOf = true) ∧
    (∀ f, PluginManager.process_frame {} [("crop", .crop ⟨false, {}, (320, 200)⟩),
        ("clock", .clock (ClockPlugin.ctor {}))] f
      = ((appliedEntries [("crop", .crop ⟨false, {}, (320, 200)⟩),
          ("clock", .clock (ClockPlugin.ctor {}))]).tail).foldl
        (fun fr e => e.2.procFrame {} fr)
        ((("crop", PluginObj.crop ⟨false, {}, (320, 200)⟩) :
          String × PluginObj).2.procFrame {} f)) :=
  C10_crop_applied_when_disabled {} _ _ rfl rfl

example :
    PluginManager.process_frame {} [("crop", .crop ⟨false, {}, (320, 200)⟩),
        ("clock", .clock { (ClockPlugin.ctor {}) with showFlag := false })]
      (.src 1 1 0) = .fitTo 320 200 (.src 1 1 0) := by decide

theorem foldl_middle_id {α β : Type} (g : β → α → β) (m : α) (hm : ∀ x, g x m = x) :
    ∀ (l1 l2 : List α) (i : β), (l1 ++ m :: l2).foldl g i = (l1 ++ l2).foldl g i := by
  intro l1 l2 i
  rw [List.foldl_append, List.foldl_append, List.foldl_cons, hm]

/-- C7: when the configured image file does not exist at initialize
time, the overlay plugin warns and keeps no image; its process_frame is
then the identity on every frame, and a manager pipeline containing such
an overlay instance produces exactly the frame the same pipeline without
it produces. -/
theorem C7_missing_overlay_noop (env : Env) (app : AppConfig) (opts : Opts)
    (hmiss : env.fileExists (opts.file.getD "moldura.png") = false) :
    ((OverlayPlugin.initializeApp env app (OverlayPlugin.ctor opts)).1.overlay_image = none ∧
     (OverlayPlugin.initializeApp env app (OverlayPlugin.ctor opts)).2 ≠ []) ∧
    (∀ (o : OverlayState) (f : Frame), o.overlay_image = none →
      OverlayPlugin.process_frame o f = f) ∧
    (∀ (o : OverlayState) (k : String) (ps1 ps2 : List (String × PluginObj)) (f : Frame),
      o.overlay_image = none →
      PluginManager.process_frame env (ps1 ++ (k, .overlay o) :: ps2) f
        = PluginManager.process_frame env (ps1 ++ ps2) f) := by
  refine ⟨?_, ?_, ?_⟩
  · constructor
    · simp [OverlayPlugin.initializeApp, OverlayPlugin.ctor, hmiss]
    · simp [OverlayPlugin.initializeApp, OverlayPlugin.ctor, hmiss]
  · intro o f ho
    simp [OverlayPlugin.process_frame, ho]
  · intro o k ps1 ps2 f ho
    have hid : ∀ fr, PluginObj.procFrame env (PluginObj.overlay o) fr = fr := by
      intro fr
      show OverlayPlugin.process_frame o fr = fr
      simp [OverlayPlugin.process_frame, ho]
    have hfind : (ps1 ++ (k, PluginObj.overlay o) :: ps2).find?
          (fun e => e.2.pname == "crop")
        = (ps1 ++ ps2).find? (fun e => e.2.pname == "crop") := by
      rw [List.find?_append, List.find?_append]
      congr 1
    rw [process_frame_eq_foldl, process_frame_eq_foldl, appliedEntries, appliedEntries,
      hfind]
    cases hcf : (ps1 ++ ps2).find? (fun e => e.2.pname == "crop") with
    | none =>
      simp only [List.filter_append, List.filter_cons]
      by_cases hen : o.enabled = true
      · have : (((k, PluginObj.overlay o) : String × PluginObj).2.enabledOf) = true := hen
        rw [this]
        simp only [if_true]
        exact foldl_middle_id (fun fr (e : String × PluginObj) => e.2.procFrame env fr)
          (k, PluginObj.overlay o) (fun x => hid x)
          (List.filter (fun e => e.2.enabledOf) ps1)
          (List.filter (fun e => e.2.enabledOf) ps2) f
      · have : (((k, PluginObj.overlay o) : String × PluginObj).2.enabledOf) = false := by
          simpa using hen
        rw [this]
        simp
    | some c =>
      simp only [List.filter_append, List.filter_cons, List.foldl_cons]
      by_cases hen : (decide (k ≠ c.1) && o.enabled) = true
      · have : (decide ((((k, PluginObj.overlay o) : String × PluginObj).1) ≠ c.1)
            && (((k, PluginObj.overlay o) : String × PluginObj).2.enabledOf)) = true := hen
        rw [this]
        simp only [if_true]
        exact foldl_middle_id (fun fr (e : String × PluginObj) => e.2.procFrame env fr)
          (k, PluginObj.overlay o) (fun x => hid x)
          (List.filter (fun e => decide (e.1 ≠ c.1) && e.2.enabledOf) ps1)
          (List.filter (fun e => decide (e.1 ≠ c.1) && e.2.enabledOf) ps2)
          (c.2.procFrame env f)
      · have : (decide ((((k, PluginObj.overlay o) : String × PluginObj).1) ≠ c.1)
            && (((k, PluginObj.overlay o) : String × PluginObj).2.enabledOf)) = false := by
          simpa using hen
        rw [this]
        simp

theorem C7_witness :
    ((OverlayPlugin.initializeApp {} {} (OverlayPlugin.ctor
        { file := some "watermark.png" })).1.overlay_image = none ∧
     (OverlayPlugin.initializeApp {} {} (OverlayPlugin.ctor
        { file := some "watermark.png" })).2 ≠ []) ∧
    (∀ (o : OverlayState) (f : Frame), o.overlay_image = none →
      OverlayPlugin.process_frame o f = f) ∧
    (∀ (o : OverlayState) (k : String) (ps1 ps2 : List (String × PluginObj)) (f : Frame),
      o.overlay_image = none →
      PluginManager.process_frame {} (ps1 ++ (k, .overlay o) :: ps2) f
        = PluginManager.process_frame {} (ps1 ++ ps2) f) :=
  C7_missing_overlay_noop {} {} { file := some "watermark.png" } rfl

/-- C6 counterexample: two update calls 2 seconds apart with
update_interval 10 seconds: the first call does not fire the throttle,
the second does (more than the interval has passed since last_update),
so the cached lines change to the new file content even though the two
calls are separated by less than update_interval. -/
theorem C6_counterexample :
    TailPlugin.update 9 (some ⟨2, 5, ["new"]⟩)
      { (TailPlugin.ctor {}) with
        file_path := "f"
        update_interval := 10
        last_update := 0
        last_file_size := 1
        last_mtime := 0
        content := ["old"] }
      = { (TailPlugin.ctor {}) with
          file_path := "f"
          update_interval := 10
          last_update := 0
          last_file_size := 1
          last_mtime := 0
          content := ["old"] } ∧
    (TailPlugin.update 11 (some ⟨2, 5, ["new"]⟩)
        (TailPlugin.update 9 (some ⟨2, 5, ["new"]⟩)
          { (TailPlugin.ctor {}) with
            file_path := "f"
            update_interval := 10
            last_update := 0
            last_file_size := 1
            last_mtime := 0
            content := ["old"] })).content = ["new"] ∧
    (11 : Rat) - 9 < (10 : Rat) ∧
    (["new"] : List String) ≠ ["old"] := by
  have h1 : TailPlugin.update 9 (some ⟨2, 5, ["new"]⟩)
      { (TailPlugin.ctor {}) with
        file_path := "f"
        update_interval := 10
        last_update := 0
        last_file_size := 1
        last_mtime := 0
        content := ["old"] }
      = { (TailPlugin.ctor {}) with
          file_path := "f"
          update_interval := 10
          last_update := 0
          last_file_size := 1
          last_mtime := 0
          content := ["old"] } := by
    rw [TailPlugin.update, if_neg (by norm_num : ¬((10 : Rat) ≤ 9 - 0))]
  refine ⟨h1, ?_, by norm_num, by decide⟩
  rw [h1, TailPlugin.update, if_pos (by norm_num : ((10 : Rat) ≤ 11 - 0))]
  rfl

/-- C6 (amended): the tail plugin refreshes only when at least
update_interval has elapsed since the last throttle firing
(last_update): an update call before that returns the state — hence the
displayed cached lines — unchanged even if the file changed, and an
update call at or past that re-reads, so when the recorded size or
mtime differs from the file, the cached lines become the freshly
selected lines of the new content (last or first N, rstripped) and
last_update is stamped with the call time. -/
theorem C6_amended (s : TailState) (now : Rat) (fi : FileInfo) :
    (now - s.last_update < s.update_interval →
      TailPlugin.update now (some fi) s = s) ∧
    (s.update_interval ≤ now - s.last_update →
      (fi.size ≠ s.last_file_size ∨ fi.mtime ≠ s.last_mtime) →
      (TailPlugin.update now (some fi) s).content
        = (if s.following then
            if s.lines < fi.lines.length then pySliceLast s.lines fi.lines else fi.lines
          else
            if s.lines < fi.lines.length then pySliceFirst s.lines fi.lines
            else fi.lines).map rstripNL ∧
      (TailPlugin.update now (some fi) s).last_update = now) := by
  constructor
  · intro h1
    rw [TailPlugin.update, if_neg (not_le.mpr h1)]
  · intro h1 h2
    have hst : (fi.size == s.last_file_size && fi.mtime == s.last_mtime) = false := by
      cases h2 with
      | inl h => simp [beq_eq_false_iff_ne.mpr h]
      | inr h => simp [beq_eq_false_iff_ne.mpr h]
    rw [TailPlugin.update, if_pos h1, TailPlugin.read_file]
    simp [hst]

theorem C6_witness :
    (TailPlugin.update 3 (some ⟨2, 5, ["x"]⟩)
      { (TailPlugin.ctor {}) with
        update_interval := 10
        last_update := 0
        content := ["old"] }
      = { (TailPlugin.ctor {}) with
          update_interval := 10
          last_update := 0
          content := ["old"] }) ∧
    ((TailPlugin.update 12 (some ⟨2, 5, ["x"]⟩)
      { (TailPlugin.ctor {}) with
        update_interval := 10
        last_update := 0
        content := ["old"] }).content = ["x"] ∧
     (TailPlugin.update 12 (some ⟨2, 5, ["x"]⟩)
      { (TailPlugin.ctor {}) with
        update_interval := 10
        last_update := 0
        content := ["old"] }).last_update = 12) :=
  ⟨(C6_amended { (TailPlugin.ctor {}) with
      update_interval := 10
      last_update := 0
      content := ["old"] } 3 ⟨2, 5, ["x"]⟩).1 (by norm_num : (3 : Rat) - 0 < 10),
   (C6_amended { (TailPlugin.ctor {}) with
      update_interval := 10
      last_update := 0
      content := ["old"] } 12 ⟨2, 5, ["x"]⟩).2 (by norm_num : (10 : Rat) ≤ 12 - 0)
     (Or.inl (by decide : (2 : Int) ≠ 0))⟩
